import Mathlib

/-!
Verification development for the trade-platform repository: shallow embedding of
the orchestration saga (src/orchestrator/src/app.py), the multi-factor risk
scoring engine and consistency validator (src/risk_service/src/app.py) and the
relevant pricing functions (src/pricing_pnl_service/src/app.py).

Modelling conventions:
* Python floats are modelled as exact rationals (ℚ); `round(x, n)` is modelled by
  `roundDec n` using round-half-to-even, matching Python's rounding rule.
* Python ints are modelled as ℤ.
* A FastAPI handler that can `raise HTTPException` is modelled as a function into
  `Except`; the HTTP status code of each error kind is recorded explicitly.
* Logging, timestamps and duration fields are not modelled (they never influence
  control flow); string messages are abbreviated where their content is not
  load-bearing.
-/

namespace TradePlatform

/-- Python's `round` to an integer: round half to even (banker's rounding). -/
def roundHalfEven (z : ℚ) : ℤ :=
  if z - ⌊z⌋ < 1 / 2 then ⌊z⌋
  else if z - ⌊z⌋ > 1 / 2 then ⌊z⌋ + 1
  else if ⌊z⌋ % 2 = 0 then ⌊z⌋ else ⌊z⌋ + 1

/-- Python's `round(x, n)`: round to `n` decimal places, half to even. -/
def roundDec (n : ℕ) (x : ℚ) : ℚ :=
  (roundHalfEven (x * 10 ^ n) : ℚ) / 10 ^ n

lemma int_le_roundHalfEven {a : ℤ} {z : ℚ} (h : (a : ℚ) ≤ z) :
    a ≤ roundHalfEven z := by
  unfold roundHalfEven
  have hf : a ≤ ⌊z⌋ := Int.le_floor.mpr h
  split_ifs <;> omega

lemma roundHalfEven_le_int {b : ℤ} {z : ℚ} (h : z ≤ (b : ℚ)) :
    roundHalfEven z ≤ b := by
  unfold roundHalfEven
  have hfb : ⌊z⌋ ≤ b := by
    have := Int.floor_le_floor h
    rwa [Int.floor_intCast] at this
  have hfl : (⌊z⌋ : ℚ) ≤ z := Int.floor_le z
  split_ifs with h1 h2 h3
  · exact hfb
  · have hlt : (⌊z⌋ : ℚ) < z := by linarith
    have hzb : (⌊z⌋ : ℚ) < (b : ℚ) := lt_of_lt_of_le hlt h
    have : ⌊z⌋ < b := by exact_mod_cast hzb
    omega
  · exact hfb
  · have h12 : z - (⌊z⌋ : ℚ) = 1 / 2 := le_antisymm (not_lt.mp h2) (not_lt.mp h1)
    have hlt : (⌊z⌋ : ℚ) < z := by linarith
    have hzb : (⌊z⌋ : ℚ) < (b : ℚ) := lt_of_lt_of_le hlt h
    have : ⌊z⌋ < b := by exact_mod_cast hzb
    omega

lemma abs_roundHalfEven_sub_le (z : ℚ) : |(roundHalfEven z : ℚ) - z| ≤ 1 / 2 := by
  unfold roundHalfEven
  have h0 : (⌊z⌋ : ℚ) ≤ z := Int.floor_le z
  have h1 : z < (⌊z⌋ : ℚ) + 1 := Int.lt_floor_add_one z
  split_ifs with ha hb hc <;> rw [abs_le] <;> constructor <;> push_cast <;> linarith

lemma int_le_roundDec (n : ℕ) {a : ℤ} {x : ℚ} (h : (a : ℚ) ≤ x) :
    (a : ℚ) ≤ roundDec n x := by
  unfold roundDec
  have hp : (0 : ℚ) < 10 ^ n := by positivity
  have hax : ((a * 10 ^ n : ℤ) : ℚ) ≤ x * 10 ^ n := by
    push_cast
    exact mul_le_mul_of_nonneg_right h (le_of_lt hp)
  have hr : ((a * 10 ^ n : ℤ) : ℚ) ≤ (roundHalfEven (x * 10 ^ n) : ℚ) := by
    exact_mod_cast int_le_roundHalfEven hax
  rw [le_div_iff hp]
  calc (a : ℚ) * 10 ^ n = ((a * 10 ^ n : ℤ) : ℚ) := by push_cast; ring
    _ ≤ _ := hr

lemma roundDec_le_int (n : ℕ) {b : ℤ} {x : ℚ} (h : x ≤ (b : ℚ)) :
    roundDec n x ≤ (b : ℚ) := by
  unfold roundDec
  have hp : (0 : ℚ) < 10 ^ n := by positivity
  have hxb : x * 10 ^ n ≤ ((b * 10 ^ n : ℤ) : ℚ) := by
    push_cast
    exact mul_le_mul_of_nonneg_right h (le_of_lt hp)
  have hr : (roundHalfEven (x * 10 ^ n) : ℚ) ≤ ((b * 10 ^ n : ℤ) : ℚ) := by
    exact_mod_cast roundHalfEven_le_int hxb
  rw [div_le_iff hp]
  calc (roundHalfEven (x * 10 ^ n) : ℚ) ≤ ((b * 10 ^ n : ℤ) : ℚ) := hr
    _ = (b : ℚ) * 10 ^ n := by push_cast; ring

lemma abs_roundDec_sub_le (n : ℕ) (x : ℚ) :
    |roundDec n x - x| ≤ 1 / (2 * 10 ^ n) := by
  unfold roundDec
  have hp : (0 : ℚ) < 10 ^ n := by positivity
  have h := abs_roundHalfEven_sub_le (x * 10 ^ n)
  have heq : (roundHalfEven (x * 10 ^ n) : ℚ) / 10 ^ n - x
      = ((roundHalfEven (x * 10 ^ n) : ℚ) - x * 10 ^ n) / 10 ^ n := by
    field_simp
    ring
  rw [heq, abs_div, abs_of_pos hp]
  rw [div_le_iff hp]
  calc |(roundHalfEven (x * 10 ^ n) : ℚ) - x * 10 ^ n| ≤ 1 / 2 := h
    _ = 1 / (2 * 10 ^ n) * 10 ^ n := by field_simp

lemma roundDec_eq_self {n : ℕ} {x : ℚ} (k : ℤ) (hk : x * 10 ^ n = (k : ℚ)) :
    roundDec n x = x := by
  have hfl : ⌊x * 10 ^ n⌋ = k := by rw [hk, Int.floor_intCast]
  have hrhe : roundHalfEven (x * 10 ^ n) = k := by
    unfold roundHalfEven
    rw [hfl, hk]
    simp
  unfold roundDec
  rw [hrhe, eq_comm, eq_div_iff (show (10 : ℚ) ^ n ≠ 0 by positivity)]
  exact hk

/-! ## Common data model (shared pydantic models) -/

/-- `OrderType` string enum, shared by all four services. -/
inductive OrderType
  | BUY
  | SELL
deriving DecidableEq, Repr

/-- `RiskLevel` string enum of the risk service. -/
inductive RiskLevel
  | LOW
  | MEDIUM
  | HIGH
deriving DecidableEq, Repr

/-- Rank used to state monotonicity of the level mapping (LOW < MEDIUM < HIGH). -/
def RiskLevel.rank : RiskLevel → ℕ
  | .LOW => 0
  | .MEDIUM => 1
  | .HIGH => 2

/-! ## Risk service (src/risk_service/src/app.py) -/

/-- `calculate_volatility_multiplier` (risk service): per-symbol volatility
multiplier, 1.0 for unknown symbols.  Explanation strings are not modelled. -/
def calculate_volatility_multiplier (symbol : String) : ℚ :=
  if symbol = "TSLA" then 2.5
  else if symbol = "NVDA" then 2.0
  else if symbol = "META" then 1.8
  else if symbol = "AMZN" then 1.5
  else if symbol = "GOOGL" then 1.3
  else if symbol = "AAPL" then 1.2
  else if symbol = "MSFT" then 1.2
  else 1.0

/-- `calculate_sector_risk_adjustment` (risk service): per-symbol sector
multiplier applied to the volatility-adjusted score; 1.0 for unknown symbols. -/
def sector_multiplier (symbol : String) : ℚ :=
  if symbol = "TSLA" then 1.3
  else if symbol = "NVDA" then 1.25
  else if symbol = "META" then 1.2
  else if symbol = "AAPL" then 1.1
  else if symbol = "GOOGL" then 1.1
  else if symbol = "MSFT" then 1.05
  else if symbol = "AMZN" then 1.15
  else 1.0

/-- `calculate_position_size_impact` (risk service): tiered position-size factor. -/
def calculate_position_size_impact (position_value : ℚ) : ℤ :=
  if position_value > 100000 then 30
  else if position_value > 50000 then 20
  else if position_value > 10000 then 10
  else 5

/-- `calculate_pnl_risk_factor` (risk service): tiered PnL factor (the
`order_type` argument is unused by the source function as well). -/
def calculate_pnl_risk_factor (pnl : ℚ) : ℤ :=
  if pnl < -5000 then 30
  else if pnl < -1000 then 20
  else if pnl < 0 then 10
  else if pnl > 10000 then 15
  else 5

/-- `assess_quantity_risk` (risk service): tiered quantity factor with strict
`>` boundaries. -/
def assess_quantity_risk (quantity : ℤ) : ℤ :=
  if quantity > 500 then 20
  else if quantity > 200 then 15
  else if quantity > 100 then 10
  else 5

/-- `normalize_risk_score` (risk service): cap at 100, floor at 0, round to 3
decimals. -/
def normalize_risk_score (raw_score : ℚ) : ℚ :=
  roundDec 3 (max (min raw_score 100) 0)

/-- Base risk score of `calculate_risk_score` step 2: sum of the three factors. -/
def base_risk_score (quantity : ℤ) (price pnl : ℚ) : ℤ :=
  calculate_position_size_impact ((quantity : ℚ) * price)
    + calculate_pnl_risk_factor pnl + assess_quantity_risk quantity

/-- Steps 3–4 of `calculate_risk_score`: volatility multiplier then sector
adjustment applied to the base score. -/
def risk_after_sector (symbol : String) (quantity : ℤ) (price pnl : ℚ) : ℚ :=
  ((base_risk_score quantity price pnl : ℚ) * calculate_volatility_multiplier symbol)
    * sector_multiplier symbol

/-- `calculate_risk_score` (risk service): the returned numeric score.  The
`risk_factors` explanation dictionary is not modelled (it never influences
control flow); the unused `order_type` parameter is kept for fidelity. -/
def calculate_risk_score (symbol : String) (quantity : ℤ) (price pnl : ℚ)
    (_order_type : OrderType) : ℚ :=
  normalize_risk_score (risk_after_sector symbol quantity price pnl)

/-- `determine_risk_level` (risk service). -/
def determine_risk_level (risk_score : ℚ) : RiskLevel :=
  if risk_score ≥ 70 then .HIGH
  else if risk_score ≥ 40 then .MEDIUM
  else .LOW

/-- Reason a compliance pre-check fails (`validate_compliance_rules`). -/
inductive ComplianceReason
  | exceedsSingleTradeLimit (position_value : ℚ)
  | restrictedSymbol (symbol : String)
deriving DecidableEq, Repr

/-- `validate_compliance_rules` (risk service).  The restricted list is a local
variable in the source (empty, sourced from a compliance database in
production), modelled as a parameter; `assess_risk` instantiates it with `[]`.
Returns `none` when compliant, `some reason` otherwise.  The unused
`order_type` parameter of the source is kept. -/
def validate_compliance_rules (restricted_stocks : List String) (symbol : String)
    (quantity : ℤ) (price : ℚ) (_order_type : OrderType) : Option ComplianceReason :=
  let position_value := (quantity : ℚ) * price
  if position_value > 500000 then some (.exceedsSingleTradeLimit position_value)
  else if symbol ∈ restricted_stocks then some (.restrictedSymbol symbol)
  else none

/-- Cost-basis table local to `assess_risk` (risk service), used by the
consistency validator; note `MSFT ↦ 360.00` while the pricing service actually
uses 350.00.  Unknown symbols default to 50.0. -/
def expected_cost_basis_map (symbol : String) : ℚ :=
  if symbol = "AAPL" then 165.00
  else if symbol = "GOOGL" then 135.00
  else if symbol = "MSFT" then 360.00
  else if symbol = "AMZN" then 145.00
  else if symbol = "TSLA" then 230.00
  else if symbol = "META" then 340.00
  else if symbol = "NVDA" then 475.00
  else 50.0

/-- The side-dependent expected-PnL formula of the consistency validator inside
`assess_risk` (before the `round(expected_pnl, 2)`). -/
def expected_pnl_raw (symbol : String) (quantity : ℤ) (price : ℚ)
    (order_type : OrderType) : ℚ :=
  match order_type with
  | .BUY => -((price - expected_cost_basis_map symbol) * quantity)
  | .SELL => (price - expected_cost_basis_map symbol) * quantity

/-- Which consistency check inside `assess_risk` failed (all raised as
HTTP 422). -/
inductive ConsistencyKind
  | pnlMismatch (expected_pnl actual_pnl : ℚ) (symbol : String)
  | sellLargeLoss (loss_percentage : ℚ)
  | pnlRatioHigh (ratio : ℚ)
deriving DecidableEq, Repr

/-- Error outcomes of the `/risk/assess` handler. -/
inductive AssessError
  | compliance (reason : ComplianceReason)
  | consistency (kind : ConsistencyKind)
  | unexpected
deriving DecidableEq, Repr

/-- HTTP status code attached to each `assess_risk` error: 403 for compliance
failures, 422 for consistency-validator failures, 500 for unexpected errors
(e.g. the ZeroDivisionError reachable when `position_value = 0`). -/
def AssessError.statusCode : AssessError → ℕ
  | .compliance _ => 403
  | .consistency _ => 422
  | .unexpected => 500

/-- Successful `/risk/assess` response (timestamp and recommendation text not
modelled). -/
structure RiskResponse where
  risk_score : ℚ
  risk_level : RiskLevel
  approved : Bool
deriving DecidableEq, Repr

/-- `assess_risk` (risk service `/risk/assess`): compliance pre-check, then the
consistency validator (expected-vs-actual PnL, SELL-at-loss magnitude, PnL/
notional ratio), then scoring, level mapping and the approval gate.  The
3-second sector deep check and the 6-second high-value sleep only affect
timing and are not modelled. -/
def assess_risk (symbol : String) (quantity : ℤ) (price pnl : ℚ)
    (order_type : OrderType) : Except AssessError RiskResponse :=
  match validate_compliance_rules [] symbol quantity price order_type with
  | some reason => .error (.compliance reason)
  | none =>
    let position_value := |(quantity : ℚ) * price|
    let pnl_ratio := if position_value > 0 then |pnl| / position_value else 0
    let expected_pnl := roundDec 2 (expected_pnl_raw symbol quantity price order_type)
    let pnl_difference := |expected_pnl - pnl|
    if pnl_difference > 0.10 then
      .error (.consistency (.pnlMismatch expected_pnl pnl symbol))
    else if order_type = .SELL ∧ pnl < 0 then
      if position_value = 0 then .error .unexpected
      else if |pnl| / position_value * 100 > 15 then
        .error (.consistency (.sellLargeLoss (|pnl| / position_value * 100)))
      else if pnl_ratio > 0.15 then .error (.consistency (.pnlRatioHigh pnl_ratio))
      else
        let risk_score := calculate_risk_score symbol quantity price pnl order_type
        let risk_level := determine_risk_level risk_score
        .ok { risk_score := risk_score, risk_level := risk_level,
              approved := decide (risk_level ≠ .HIGH) }
    else if pnl_ratio > 0.15 then .error (.consistency (.pnlRatioHigh pnl_ratio))
    else
      let risk_score := calculate_risk_score symbol quantity price pnl order_type
      let risk_level := determine_risk_level risk_score
      .ok { risk_score := risk_score, risk_level := risk_level,
            approved := decide (risk_level ≠ .HIGH) }

/-- `escalate_to_risk_manager` (risk service `/risk/escalate`): auto-approved
exactly when the score is below 85. -/
def escalate_to_risk_manager (risk_score : ℚ) : Bool :=
  decide (risk_score < 85)

/-- Simulated aggregate positions table of `check_aggregate_exposure`
(institutional workflow); 0 for unknown symbols. -/
def aggregate_positions (symbol : String) : ℤ :=
  if symbol = "AAPL" then 50000
  else if symbol = "GOOGL" then 30000
  else if symbol = "MSFT" then 45000
  else if symbol = "AMZN" then 25000
  else if symbol = "TSLA" then 15000
  else 0

/-- `/risk/assess-institutional` response fields used by the orchestrator. -/
structure InstRiskResponse where
  approved : Bool
  risk_score : ℚ
  within_limits : Bool
  requires_13f : Bool
  requires_13d : Bool
  is_compliant : Bool
deriving DecidableEq, Repr

/-- `assess_institutional_risk` (risk service `/risk/assess-institutional`):
base score, aggregate cross-portfolio exposure check and regulatory (13F/13D)
check; approved iff score ≤ 70 and both checks pass. -/
def assess_institutional_risk (symbol : String) (quantity : ℤ)
    (price estimated_pnl : ℚ) (order_type : OrderType) : InstRiskResponse :=
  let risk_score := calculate_risk_score symbol quantity price estimated_pnl order_type
  let new_exposure := aggregate_positions symbol + quantity
  let within_limits := decide (new_exposure ≤ 100000)
  let total_value := (quantity : ℚ) * price
  let requires_13f := decide (total_value > 500000)
  let requires_13d := decide (quantity > 50000)
  let is_compliant := !requires_13f && !requires_13d
  { approved := decide (risk_score ≤ 70) && within_limits && is_compliant,
    risk_score := risk_score, within_limits := within_limits,
    requires_13f := requires_13f, requires_13d := requires_13d,
    is_compliant := is_compliant }

/-- Payload the orchestrator posts to `/risk/pre-trade-check` (algo workflow).
`price` is included in the JSON but never read by the handler; `pnl` and
`order_type` are not part of the payload at all. -/
structure AlgoRiskRequest where
  order_id : String
  symbol : String
  quantity : ℤ
  price : ℚ
  strategy_id : String
deriving DecidableEq, Repr

/-- `verify_pre_trade_risk` (risk service): quick score `(quantity / 1000) * 5`,
passes iff the score is at most 50. -/
def verify_pre_trade_risk (quantity : ℤ) : ℚ × Bool :=
  let quick_score := (quantity : ℚ) / 1000 * 5
  (quick_score, decide (quick_score ≤ 50))

/-- Active strategies simulated by `check_strategy_correlation`. -/
def active_strategies : List String := ["MOMENTUM_v2", "ARBITRAGE_v3"]

/-- `check_strategy_correlation` (risk service): high correlation only for an
active strategy on TSLA while several strategies are active. -/
def check_strategy_correlation (strategy_id symbol : String) : Bool :=
  decide (strategy_id ∈ active_strategies ∧ symbol = "TSLA"
    ∧ active_strategies.length > 1)

/-- `/risk/pre-trade-check` response fields used by the orchestrator. -/
structure AlgoRiskResponse where
  approved : Bool
  quick_risk_score : ℚ
  strategy_id : String
deriving DecidableEq, Repr

/-- `pre_trade_check` (risk service `/risk/pre-trade-check`): fast quantity-only
scoring plus the strategy-correlation check; no PnL- or side-based checks
exist on this path. -/
def pre_trade_check (req : AlgoRiskRequest) : AlgoRiskResponse :=
  let pre := verify_pre_trade_risk req.quantity
  let high_correlation := check_strategy_correlation req.strategy_id req.symbol
  { approved := pre.2 && !high_correlation,
    quick_risk_score := pre.1, strategy_id := req.strategy_id }

/-! ## Pricing & PnL service (src/pricing_pnl_service/src/app.py) -/

/-- `get_cost_basis` (pricing service): canonical cost-basis table, default
50.0 for unknown symbols. -/
def get_cost_basis (symbol : String) : ℚ :=
  if symbol = "AAPL" then 165.00
  else if symbol = "GOOGL" then 135.00
  else if symbol = "MSFT" then 360.00
  else if symbol = "AMZN" then 145.00
  else if symbol = "TSLA" then 230.00
  else if symbol = "META" then 340.00
  else if symbol = "NVDA" then 475.00
  else 50.0

/-- `calculate_estimated_pnl` (pricing service): side-dependent PnL from cost
basis, rounded to 2 decimals.  Note the source substitutes a hard-coded
`actual_cost_basis_used = 350.00` for MSFT instead of the table value 360.00. -/
def calculate_estimated_pnl (symbol : String) (quantity : ℤ) (price : ℚ)
    (order_type : OrderType) : ℚ :=
  let cost_basis := get_cost_basis symbol
  let price_diff := if symbol = "MSFT" then price - 350.00 else price - cost_basis
  match order_type with
  | .BUY => roundDec 2 (-(price_diff * quantity))
  | .SELL => roundDec 2 (price_diff * quantity)

/-- Base-price table of `calculate_algo_pricing` (pricing service), default
100.0 for unknown symbols. -/
def algo_base_prices (symbol : String) : ℚ :=
  if symbol = "AAPL" then 175.50
  else if symbol = "GOOGL" then 140.25
  else if symbol = "MSFT" then 378.90
  else if symbol = "AMZN" then 152.75
  else if symbol = "TSLA" then 242.80
  else if symbol = "META" then 356.20
  else if symbol = "NVDA" then 495.60
  else 100.0

/-- Pricing payload consumed by the orchestrator (fields of `PricingResponse`
and of the institutional / algo pricing results; timestamp omitted). -/
structure PricingResult where
  price : ℚ
  estimated_pnl : ℚ
  total_cost : ℚ
  commission : ℚ
  fees : ℚ
  base_amount : ℚ
deriving DecidableEq, Repr

/-- `calculate_algo_pricing` (pricing service `/pricing/algo-fast`): table
price, minimal cost model, and `estimated_pnl` hard-coded to 0.0 ("skip PnL
for speed").  Deterministic: it applies no market variance and can raise no
exception for well-formed requests. -/
def calculate_algo_pricing (symbol : String) (quantity : ℤ)
    (order_type : OrderType) : PricingResult :=
  let price := algo_base_prices symbol
  let base_amount := (quantity : ℚ) * price
  let commission := base_amount * 0.0001
  let fees := (quantity : ℚ) * 0.005
  let total_cost :=
    match order_type with
    | .BUY => base_amount + commission + fees
    | .SELL => base_amount - commission - fees
  { price := price, estimated_pnl := 0.0, total_cost := roundDec 2 total_cost,
    commission := roundDec 2 commission, fees := roundDec 2 fees,
    base_amount := roundDec 2 base_amount }

/-! ## Orchestrator (src/orchestrator/src/app.py)

Remote calls are modelled by environment records: each call either fails at the
transport / HTTP level (`CallErr`, as surfaced by `call_service` raising
`HTTPException`) or yields a payload.  Calls whose reply is produced
deterministically by an embedded service (risk assessment, escalation, the
algo pricing path) are modelled by composing that service's function; calls
with unmodelled randomness or external state (validation, the
market-price-dependent pricing paths, execution, tax analysis) are modelled by
free outcome parameters. -/

/-- An `HTTPException` raised by `call_service`: timeout (504), an error status
forwarded from a downstream service, or transport failure (500). -/
structure CallErr where
  status : ℕ
  detail : String
deriving DecidableEq, Repr

/-- `/trades/validate` response fields used by the orchestrator. -/
structure ValidationResult where
  valid : Bool
  reason : Option String
  normalized_quantity : ℤ
deriving DecidableEq, Repr

/-- `/trades/execute` response fields used by the orchestrator. -/
structure ExecutionResult where
  status : String
deriving DecidableEq, Repr

/-- Final status of an `OrderResponse`.  `serverError` stands for the paths
that re-raise `HTTPException(500, ...)` out of the handler (FastAPI then
returns an HTTP 500 error body instead of an `OrderResponse`). -/
inductive Status
  | EXECUTED
  | REJECTED
  | FAILED
  | PENDING_APPROVAL
  | serverError
deriving DecidableEq, Repr

/-- The `validation` section of an `execution_flow` report. -/
structure ValidationSection where
  passed : Bool
  normalized_quantity : Option ℤ
  reason : Option String
deriving DecidableEq, Repr

/-- The stage, message and HTTP status recorded in the `failure` section of an
`execution_flow` report. -/
structure FailureInfo where
  stage : String
  message : String
  statusCode : ℕ
deriving DecidableEq, Repr

/-- The `risk_assessment` section of a retail `execution_flow`: either the
captured risk-service output, or the timeout marker written by the dedicated
504 path of `place_order`. -/
inductive RiskFlowEntry
  | captured (risk_level : RiskLevel) (risk_score : ℚ) (approved : Bool)
  | timedOut
deriving DecidableEq, Repr

/-- `execution_flow` trail, parameterized by the shape `ρ` of the
`risk_assessment` section (it differs per workflow); `none` means the section
is absent from the report.  Duration and timestamp fields are not modelled. -/
structure Flow (ρ : Type) where
  validation : Option ValidationSection
  pricing_calculation : Option PricingResult
  risk_assessment : Option ρ
  execution : Option ExecutionResult
  failure : Option FailureInfo
deriving DecidableEq

/-- The flow with no sections (used for responses carrying no
`execution_flow`, e.g. PENDING_APPROVAL / plain REJECTED responses). -/
def Flow.empty {ρ : Type} : Flow ρ := ⟨none, none, none, none, none⟩

/-- Saga result: response status and flow, plus the ghost flag
`executionInvoked` recording whether the `/trades/execute` call was issued
(instrumentation of the model, not a response field). -/
structure SagaOutcome (ρ : Type) where
  status : Status
  flow : Flow ρ
  executionInvoked : Bool
deriving DecidableEq

/-- The failure-stage attribution shared by `build_error_response` and the
inline handler of `place_order`: the first stage (in completion order
validation < pricing_calculation < risk_assessment < execution) whose output
was not captured. -/
def determine_failure_stage {α β γ : Type} (trade_result : Option α)
    (pricing_result : Option β) (risk_result : Option γ) : String :=
  if trade_result.isNone then "validation"
  else if pricing_result.isNone then "pricing_calculation"
  else if risk_result.isNone then "risk_assessment"
  else "execution"

/-- The `validation` section written for a stage that passed validation with
the given normalized quantity. -/
def passedValidation (q : ℤ) : ValidationSection :=
  { passed := true, normalized_quantity := some q, reason := none }

/-- `build_error_response` (orchestrator): FAILED response whose
`execution_flow` echoes every captured stage output, adds a `failure` section,
and never contains an `execution` section. -/
def build_error_response {ρ : Type} (trade_result : Option ValidationResult)
    (pricing_result : Option PricingResult) (risk_result : Option ρ)
    (e : CallErr) : SagaOutcome ρ :=
  { status := .FAILED,
    flow :=
      { validation := trade_result.map (fun t => passedValidation t.normalized_quantity),
        pricing_calculation := pricing_result,
        risk_assessment := risk_result,
        execution := none,
        failure := some
          { stage := determine_failure_stage trade_result pricing_result risk_result,
            message := e.detail, statusCode := e.status } },
    executionInvoked := false }

/-- Detail string of the `HTTPException` produced by each `assess_risk` error
(abbreviated; the formatted numbers of the source messages are carried in the
error constructors instead). -/
def AssessError.detail : AssessError → String
  | .compliance _ => "Compliance validation failed"
  | .consistency _ => "Risk validation failed"
  | .unexpected => "Risk assessment failed"

/-- The `HTTPException` that `call_service` raises when `/risk/assess` answers
with an error response. -/
def callErrOfAssess (e : AssessError) : CallErr :=
  { status := e.statusCode, detail := e.detail }

/-- Remote-call outcomes for one retail (`place_order`) saga execution. -/
structure RetailEnv where
  validation : Except CallErr ValidationResult
  validationPricing : Except CallErr PricingResult
  pricing : Except CallErr PricingResult
  riskTransport : Option CallErr
  escalationTransport : Option CallErr
  taxTransport : Option CallErr
  execution : Except CallErr ExecutionResult

/-- An `OrderRequest` as accepted by the three order endpoints. -/
structure OrderReq where
  symbol : String
  quantity : ℤ
  order_type : OrderType
deriving DecidableEq, Repr

/-- The error path of `place_order` (its inline duplicate of
`build_error_response`). -/
def retail_error_response (trade_result : Option ValidationResult)
    (pricing_result : Option PricingResult) (risk_result : Option RiskResponse)
    (e : CallErr) : SagaOutcome RiskFlowEntry :=
  build_error_response trade_result pricing_result
    (risk_result.map (fun r => RiskFlowEntry.captured r.risk_level r.risk_score r.approved)) e

/-- Last segment of `place_order`: the high-risk rejection check (`risk_level
== HIGH and approved is False`) followed by the execution call. -/
def retail_gate_and_execute (env : RetailEnv) (tr : ValidationResult)
    (pr : PricingResult) (rr : RiskResponse) (actual_quantity : ℤ) :
    SagaOutcome RiskFlowEntry :=
  if rr.risk_level = .HIGH ∧ rr.approved = false then
    { status := .REJECTED,
      flow :=
        { validation := some (passedValidation actual_quantity),
          pricing_calculation := some pr,
          risk_assessment := some (.captured rr.risk_level rr.risk_score rr.approved),
          execution := none, failure := none },
      executionInvoked := false }
  else
    match env.execution with
    | .error e =>
      { retail_error_response (some tr) (some pr) (some rr) e with
        executionInvoked := true }
    | .ok ex =>
      { status := .EXECUTED,
        flow :=
          { validation := some (passedValidation actual_quantity),
            pricing_calculation := some pr,
            risk_assessment := some (.captured rr.risk_level rr.risk_score rr.approved),
            execution := some ex, failure := none },
        executionInvoked := true }

/-- Tail of `place_order` after the risk stage succeeded: optional tax-analysis
sub-saga (SELL at a loss), then `retail_gate_and_execute`. -/
def retail_finish (order : OrderReq) (env : RetailEnv) (tr : ValidationResult)
    (pr : PricingResult) (rr : RiskResponse) (actual_quantity : ℤ) :
    SagaOutcome RiskFlowEntry :=
  match (if order.order_type = .SELL ∧ pr.estimated_pnl < 0
      then env.taxTransport else none) with
  | some e => retail_error_response (some tr) (some pr) (some rr) e
  | none => retail_gate_and_execute env tr pr rr actual_quantity

/-- `place_order` (orchestrator `/orders/retail`), composed with the embedded
risk service: validation, validation-price snapshot, execution pricing, risk
assessment (with the dedicated 504-timeout response path), optional escalation
sub-saga (score > 75), then `retail_finish`.  The `vp.price = 0` guard models
the ZeroDivisionError of the price-variance computation (a non-HTTPException,
re-raised as a 500 server error). -/
def place_order (order : OrderReq) (env : RetailEnv) : SagaOutcome RiskFlowEntry :=
  match env.validation with
  | .error e => retail_error_response none none none e
  | .ok tr =>
    if tr.valid = false then
      { status := .REJECTED,
        flow :=
          { validation := some { passed := false, normalized_quantity := none, reason := tr.reason },
            pricing_calculation := none, risk_assessment := none,
            execution := none, failure := none },
        executionInvoked := false }
    else
      let actual_quantity := tr.normalized_quantity
      match env.validationPricing with
      | .error e => retail_error_response (some tr) none none e
      | .ok vp =>
        match env.pricing with
        | .error e => retail_error_response (some tr) none none e
        | .ok pr =>
          if vp.price = 0 then
            { status := .serverError, flow := Flow.empty, executionInvoked := false }
          else
            match env.riskTransport with
            | some e =>
              if e.status = 504 then
                { status := .FAILED,
                  flow :=
                    { validation := some (passedValidation actual_quantity),
                      pricing_calculation := some pr,
                      risk_assessment := some .timedOut,
                      execution := none, failure := none },
                  executionInvoked := false }
              else retail_error_response (some tr) (some pr) none e
            | none =>
              match assess_risk order.symbol actual_quantity pr.price pr.estimated_pnl
                  order.order_type with
              | .error ae =>
                if (callErrOfAssess ae).status = 504 then
                  { status := .FAILED,
                    flow :=
                      { validation := some (passedValidation actual_quantity),
                        pricing_calculation := some pr,
                        risk_assessment := some .timedOut,
                        execution := none, failure := none },
                    executionInvoked := false }
                else retail_error_response (some tr) (some pr) none (callErrOfAssess ae)
              | .ok rr =>
                if rr.risk_score > 75 then
                  match env.escalationTransport with
                  | some e => retail_error_response (some tr) (some pr) (some rr) e
                  | none =>
                    if escalate_to_risk_manager rr.risk_score = false then
                      { status := .PENDING_APPROVAL, flow := Flow.empty,
                        executionInvoked := false }
                    else retail_finish order env tr pr rr actual_quantity
                else retail_finish order env tr pr rr actual_quantity

/-- Remote-call outcomes for one institutional (`place_institutional_order`)
saga execution; the institutional risk response itself is computed by the
embedded `assess_institutional_risk` when the call does not fail. -/
structure InstEnv where
  validation : Except CallErr ValidationResult
  pricing : Except CallErr PricingResult
  riskTransport : Option CallErr
  execution : Except CallErr ExecutionResult

/-- `place_institutional_order` (orchestrator `/orders/institutional`),
composed with the embedded institutional risk assessment: validate, price with
volume discount, assess risk (approved iff score ≤ 70 and aggregate/regulatory
checks pass), execute.  All `HTTPException` paths go through
`build_error_response`. -/
def place_institutional_order (order : OrderReq) (env : InstEnv) :
    SagaOutcome InstRiskResponse :=
  match env.validation with
  | .error e => build_error_response none none none e
  | .ok tr =>
    if tr.valid = false then
      { status := .REJECTED, flow := Flow.empty, executionInvoked := false }
    else
      let actual_quantity := tr.normalized_quantity
      match env.pricing with
      | .error e => build_error_response (some tr) none none e
      | .ok pr =>
        match env.riskTransport with
        | some e => build_error_response (some tr) (some pr) none e
        | none =>
          let rr := assess_institutional_risk order.symbol actual_quantity pr.price
            pr.estimated_pnl order.order_type
          if rr.approved = false then
            { status := .REJECTED, flow := Flow.empty, executionInvoked := false }
          else
            match env.execution with
            | .error e =>
              { build_error_response (some tr) (some pr) (some rr) e with
                executionInvoked := true }
            | .ok ex =>
              { status := .EXECUTED,
                flow :=
                  { validation := some (passedValidation actual_quantity),
                    pricing_calculation := some pr,
                    risk_assessment := some rr,
                    execution := some ex, failure := none },
                executionInvoked := true }

/-- Remote-call outcomes for one algorithmic (`place_algo_order`) saga
execution; both the algo pricing result and the pre-trade risk response are
computed by the embedded deterministic service functions when the calls do not
fail at transport level. -/
structure AlgoEnv where
  validation : Except CallErr ValidationResult
  pricingTransport : Option CallErr
  riskTransport : Option CallErr
  execution : Except CallErr ExecutionResult

/-- The `/risk/pre-trade-check` payload assembled by `place_algo_order`: it
carries the requested (non-normalized) quantity and the algo price, but no PnL
and no order side. -/
def algoRiskRequest (order : OrderReq) (pr : PricingResult) : AlgoRiskRequest :=
  { order_id := "", symbol := order.symbol, quantity := order.quantity,
    price := pr.price, strategy_id := "MOMENTUM_v2" }

/-- `place_algo_order` (orchestrator `/orders/algo`), composed with the
embedded fast pricing path and lightweight pre-trade check: validate, price
via `/pricing/algo-fast`, pre-trade risk check, execute.  Note the algo
workflow uses `order.quantity` (not the normalized quantity) downstream. -/
def place_algo_order (order : OrderReq) (env : AlgoEnv) :
    SagaOutcome AlgoRiskResponse :=
  match env.validation with
  | .error e => build_error_response none none none e
  | .ok tr =>
    if tr.valid = false then
      { status := .REJECTED, flow := Flow.empty, executionInvoked := false }
    else
      match env.pricingTransport with
      | some e => build_error_response (some tr) none none e
      | none =>
        let pr := calculate_algo_pricing order.symbol order.quantity order.order_type
        match env.riskTransport with
        | some e => build_error_response (some tr) (some pr) none e
        | none =>
          let rr := pre_trade_check (algoRiskRequest order pr)
          if rr.approved = false then
            { status := .REJECTED, flow := Flow.empty, executionInvoked := false }
          else
            match env.execution with
            | .error e =>
              { build_error_response (some tr) (some pr) (some rr) e with
                executionInvoked := true }
            | .ok ex =>
              { status := .EXECUTED,
                flow :=
                  { validation := some (passedValidation tr.normalized_quantity),
                    pricing_calculation := some pr,
                    risk_assessment := some rr,
                    execution := some ex, failure := none },
                executionInvoked := true }

/-! ## Helper lemmas about the risk scoring engine -/

lemma five_le_position_impact (v : ℚ) : 5 ≤ calculate_position_size_impact v := by
  unfold calculate_position_size_impact
  split_ifs <;> norm_num

lemma five_le_pnl_factor (pnl : ℚ) : 5 ≤ calculate_pnl_risk_factor pnl := by
  unfold calculate_pnl_risk_factor
  split_ifs <;> norm_num

lemma five_le_quantity_factor (q : ℤ) : 5 ≤ assess_quantity_risk q := by
  unfold assess_quantity_risk
  split_ifs <;> norm_num

lemma position_impact_mono {v w : ℚ} (h : v ≤ w) :
    calculate_position_size_impact v ≤ calculate_position_size_impact w := by
  unfold calculate_position_size_impact
  split_ifs <;> try norm_num
  all_goals linarith

lemma one_le_volatility_multiplier (s : String) :
    1 ≤ calculate_volatility_multiplier s := by
  unfold calculate_volatility_multiplier
  split_ifs <;> norm_num

lemma one_le_sector_multiplier (s : String) : 1 ≤ sector_multiplier s := by
  unfold sector_multiplier
  split_ifs <;> norm_num

lemma fifteen_le_base_risk_score (q : ℤ) (price pnl : ℚ) :
    15 ≤ base_risk_score q price pnl := by
  unfold base_risk_score
  have h1 := five_le_position_impact ((q : ℚ) * price)
  have h2 := five_le_pnl_factor pnl
  have h3 := five_le_quantity_factor q
  omega

lemma risk_after_sector_nonneg (symbol : String) (q : ℤ) (price pnl : ℚ) :
    0 ≤ risk_after_sector symbol q price pnl := by
  unfold risk_after_sector
  have h1 : (0 : ℚ) ≤ (base_risk_score q price pnl : ℚ) := by
    have := fifteen_le_base_risk_score q price pnl
    exact_mod_cast le_trans (by norm_num) this
  have h2 := one_le_volatility_multiplier symbol
  have h3 := one_le_sector_multiplier symbol
  positivity

/-- Characterization of a successful `assess_risk` result: score, level and
approval gate are exactly those computed by the scoring engine. -/
lemma assess_risk_ok_spec {symbol : String} {quantity : ℤ} {price pnl : ℚ}
    {ot : OrderType} {rr : RiskResponse}
    (h : assess_risk symbol quantity price pnl ot = .ok rr) :
    rr.risk_score = calculate_risk_score symbol quantity price pnl ot
    ∧ rr.risk_level = determine_risk_level rr.risk_score
    ∧ rr.approved = decide (rr.risk_level ≠ .HIGH) := by
  unfold assess_risk at h
  dsimp only at h
  split at h
  · simp at h
  · split at h
    · simp at h
    · split at h
      · split at h
        · simp at h
        · split at h
          · simp at h
          · split at h
            · split at h
              · simp at h
              · cases h
                refine ⟨rfl, rfl, rfl⟩
            · rw [if_neg (by norm_num)] at h
              cases h
              refine ⟨rfl, rfl, rfl⟩
      · split at h
        · split at h
          · simp at h
          · cases h
            refine ⟨rfl, rfl, rfl⟩
        · rw [if_neg (by norm_num)] at h
          cases h
          refine ⟨rfl, rfl, rfl⟩

/-! ## Claim theorems -/

/-- C2: for every symbol, quantity, price, PnL and order type, the score
returned by `calculate_risk_score` is the clamped-and-rounded sector-adjusted
score and lies in the interval [0, 100]. -/
theorem risk_score_bounded (symbol : String) (quantity : ℤ) (price pnl : ℚ)
    (ot : OrderType) :
    calculate_risk_score symbol quantity price pnl ot
      = normalize_risk_score (risk_after_sector symbol quantity price pnl)
    ∧ 0 ≤ calculate_risk_score symbol quantity price pnl ot
    ∧ calculate_risk_score symbol quantity price pnl ot ≤ 100 := by
  refine ⟨rfl, ?_, ?_⟩
  · unfold calculate_risk_score normalize_risk_score
    have h0 : ((0 : ℤ) : ℚ) ≤ max (min (risk_after_sector symbol quantity price pnl) 100) 0 := by
      simpa using le_max_right _ (0 : ℚ)
    simpa using int_le_roundDec 3 h0
  · unfold calculate_risk_score normalize_risk_score
    have h100 : max (min (risk_after_sector symbol quantity price pnl) 100) 0
        ≤ ((100 : ℤ) : ℚ) := by
      push_cast
      exact max_le (min_le_right _ _) (by norm_num)
    simpa using roundDec_le_int 3 h100

/-- C7 (counterexample): the quantity factors at the 100-share boundary differ
(5 vs 10), yet the two otherwise-identical TSLA orders both clamp to a final
risk score of exactly 100, so they do not get different risk scores. -/
theorem quantity_boundary_equal_scores_counterexample :
    assess_quantity_risk 100 = 5 ∧ assess_quantity_risk 101 = 10
    ∧ calculate_risk_score "TSLA" 100 2000 0 .BUY = 100
    ∧ calculate_risk_score "TSLA" 101 2000 0 .BUY = 100 := by
  have e100 : risk_after_sector "TSLA" 100 2000 0 = 130 := by
    simp [risk_after_sector, base_risk_score, calculate_position_size_impact,
      calculate_pnl_risk_factor, assess_quantity_risk, calculate_volatility_multiplier,
      sector_multiplier]
    norm_num
  have e101 : risk_after_sector "TSLA" 101 2000 0 = 146.25 := by
    simp [risk_after_sector, base_risk_score, calculate_position_size_impact,
      calculate_pnl_risk_factor, assess_quantity_risk, calculate_volatility_multiplier,
      sector_multiplier]
    norm_num
  have hclamp : ∀ r : ℚ, 100 ≤ r → max (min r 100) 0 = 100 := by
    intro r hr
    rw [min_eq_right hr]
    norm_num
  refine ⟨by decide, by decide, ?_, ?_⟩
  · unfold calculate_risk_score normalize_risk_score
    rw [e100, hclamp 130 (by norm_num)]
    exact roundDec_eq_self 100000 (by norm_num)
  · unfold calculate_risk_score normalize_risk_score
    rw [e101, hclamp 146.25 (by norm_num)]
    exact roundDec_eq_self 100000 (by norm_num)

/-- C7 (amended): the quantity factor uses strict `>` tier boundaries (20 for
q > 500, 15 for 200 < q ≤ 500, 10 for 100 < q ≤ 200, 5 for q ≤ 100); quantity
100 scores 5 while 101 scores 10; and two otherwise-identical orders differing
by one share at the 100 boundary get strictly different final risk scores
whenever the larger order's sector-adjusted raw score does not exceed the
100-point clamp (when both raw scores exceed 100, both final scores clamp to
100 and coincide, as the counterexample shows). -/
theorem quantity_factor_boundary (q : ℤ) :
    (assess_quantity_risk q = 20 ↔ 500 < q)
    ∧ (assess_quantity_risk q = 15 ↔ 200 < q ∧ q ≤ 500)
    ∧ (assess_quantity_risk q = 10 ↔ 100 < q ∧ q ≤ 200)
    ∧ (assess_quantity_risk q = 5 ↔ q ≤ 100)
    ∧ assess_quantity_risk 100 = 5 ∧ assess_quantity_risk 101 = 10
    ∧ ∀ (symbol : String) (price pnl : ℚ) (ot : OrderType), 0 < price →
        risk_after_sector symbol 101 price pnl ≤ 100 →
        calculate_risk_score symbol 100 price pnl ot
          < calculate_risk_score symbol 101 price pnl ot := by
  refine ⟨?_, ?_, ?_, ?_, by decide, by decide, ?_⟩
  · unfold assess_quantity_risk
    split_ifs <;> omega
  · unfold assess_quantity_risk
    split_ifs <;> omega
  · unfold assess_quantity_risk
    split_ifs <;> omega
  · unfold assess_quantity_risk
    split_ifs <;> omega
  · intro symbol price pnl ot hp h101
    have hbase : base_risk_score 100 price pnl + 5 ≤ base_risk_score 101 price pnl := by
      unfold base_risk_score
      have hmono : calculate_position_size_impact ((100 : ℤ) * price)
          ≤ calculate_position_size_impact ((101 : ℤ) * price) := by
        apply position_impact_mono
        push_cast
        nlinarith
      have h100 : assess_quantity_risk 100 = 5 := by decide
      have h101q : assess_quantity_risk 101 = 10 := by decide
      omega
    have hv := one_le_volatility_multiplier symbol
    have hs := one_le_sector_multiplier symbol
    have hb100 : (15 : ℚ) ≤ (base_risk_score 100 price pnl : ℚ) := by
      exact_mod_cast fifteen_le_base_risk_score 100 price pnl
    have hbQ : (base_risk_score 100 price pnl : ℚ) + 5 ≤ (base_risk_score 101 price pnl : ℚ) := by
      exact_mod_cast hbase
    have hgap : risk_after_sector symbol 100 price pnl + 5
        ≤ risk_after_sector symbol 101 price pnl := by
      unfold risk_after_sector
      have hvs : 1 ≤ calculate_volatility_multiplier symbol * sector_multiplier symbol := by
        nlinarith
      have hd : (5 : ℚ) ≤ (base_risk_score 101 price pnl : ℚ)
          - (base_risk_score 100 price pnl : ℚ) := by linarith
      have h5 : (5 : ℚ) * (calculate_volatility_multiplier symbol * sector_multiplier symbol)
          ≤ ((base_risk_score 101 price pnl : ℚ) - (base_risk_score 100 price pnl : ℚ))
            * (calculate_volatility_multiplier symbol * sector_multiplier symbol) :=
        mul_le_mul_of_nonneg_right hd (by linarith)
      nlinarith [h5, hvs]
    have h0 : 0 ≤ risk_after_sector symbol 100 price pnl :=
      risk_after_sector_nonneg symbol 100 price pnl
    have h0b : 0 ≤ risk_after_sector symbol 101 price pnl :=
      risk_after_sector_nonneg symbol 101 price pnl
    have hc100 : max (min (risk_after_sector symbol 100 price pnl) 100) 0
        = risk_after_sector symbol 100 price pnl := by
      rw [min_eq_left (by linarith), max_eq_left h0]
    have hc101 : max (min (risk_after_sector symbol 101 price pnl) 100) 0
        = risk_after_sector symbol 101 price pnl := by
      rw [min_eq_left h101, max_eq_left h0b]
    unfold calculate_risk_score normalize_risk_score
    rw [hc100, hc101]
    have hr100 := abs_le.mp (abs_roundDec_sub_le 3 (risk_after_sector symbol 100 price pnl))
    have hr101 := abs_le.mp (abs_roundDec_sub_le 3 (risk_after_sector symbol 101 price pnl))
    have hsmall : (1 : ℚ) / (2 * 10 ^ 3) < 5 / 2 := by norm_num
    linarith [hr100.1, hr100.2, hr101.1, hr101.2]

/-- C8: the level mapping returns HIGH iff the score is at least 70, MEDIUM iff
it is in [40, 70), LOW iff below 40; it is monotone under the ranking
LOW < MEDIUM < HIGH; and on every successful standard risk assessment the
approval flag equals (level ≠ HIGH). -/
theorem level_mapping_spec (s : ℚ) :
    (determine_risk_level s = .HIGH ↔ 70 ≤ s)
    ∧ (determine_risk_level s = .MEDIUM ↔ 40 ≤ s ∧ s < 70)
    ∧ (determine_risk_level s = .LOW ↔ s < 40)
    ∧ (∀ t : ℚ, s ≤ t → (determine_risk_level s).rank ≤ (determine_risk_level t).rank)
    ∧ (∀ (symbol : String) (quantity : ℤ) (price pnl : ℚ) (ot : OrderType)
        (rr : RiskResponse), assess_risk symbol quantity price pnl ot = .ok rr →
        rr.risk_level = determine_risk_level rr.risk_score
        ∧ (rr.approved = true ↔ rr.risk_level ≠ .HIGH)) := by
  refine ⟨?_, ?_, ?_, ?_, ?_⟩
  · unfold determine_risk_level
    split_ifs with h1 h2 <;> simp_all <;> linarith
  · unfold determine_risk_level
    split_ifs with h1 h2 <;> simp_all <;> constructor <;> intro <;> linarith
  · unfold determine_risk_level
    split_ifs with h1 h2 <;> simp_all <;> linarith
  · intro t hst
    unfold determine_risk_level RiskLevel.rank
    split_ifs <;> simp_all <;> linarith
  · intro symbol quantity price pnl ot rr h
    obtain ⟨-, hlvl, happ⟩ := assess_risk_ok_spec h
    refine ⟨hlvl, ?_⟩
    rw [happ]
    simp

lemma validate_compliance_none (symbol : String) (quantity : ℤ) (price : ℚ)
    (ot : OrderType) (h : (quantity : ℚ) * price ≤ 500000) :
    validate_compliance_rules [] symbol quantity price ot = none := by
  unfold validate_compliance_rules
  dsimp only
  rw [if_neg (not_lt.mpr h)]
  simp

/-- C5: the compliance pre-check runs before risk scoring and fails closed: any
order with notional above $500,000 makes `assess_risk` return a 403 compliance
error carrying that notional, for every PnL (hence regardless of the score the
engine would compute); and any symbol on the injected restricted list is
rejected by `validate_compliance_rules` when the notional cap passes. -/
theorem compliance_precheck (symbol : String) (quantity : ℤ) (price pnl : ℚ)
    (ot : OrderType) :
    ((quantity : ℚ) * price > 500000 →
      assess_risk symbol quantity price pnl ot
        = .error (.compliance (.exceedsSingleTradeLimit ((quantity : ℚ) * price))))
    ∧ (∀ restricted : List String, symbol ∈ restricted →
        (quantity : ℚ) * price ≤ 500000 →
        validate_compliance_rules restricted symbol quantity price ot
          = some (.restrictedSymbol symbol)) := by
  constructor
  · intro h
    unfold assess_risk validate_compliance_rules
    dsimp only
    rw [if_pos h]
  · intro restricted hmem hle
    unfold validate_compliance_rules
    dsimp only
    rw [if_neg (not_lt.mpr hle), if_pos hmem]

/-- C5 witness: a $600,000-notional order (2000 shares at $300) is rejected by
the compliance pre-check, and a restricted symbol is rejected once injected. -/
theorem compliance_precheck_witness :
    assess_risk "AAPL" 2000 300 0 .BUY
      = .error (.compliance (.exceedsSingleTradeLimit 600000))
    ∧ validate_compliance_rules ["XYZ"] "XYZ" 10 10 .BUY
      = some (.restrictedSymbol "XYZ") := by
  constructor
  · have h := (compliance_precheck "AAPL" 2000 300 0 .BUY).1 (by norm_num)
    have e : ((2000 : ℤ) : ℚ) * 300 = 600000 := by norm_num
    rw [e] at h
    exact h
  · exact (compliance_precheck "XYZ" 10 10 0 .BUY).2 ["XYZ"] (by simp) (by norm_num)

/-- C6: evaluation at the failing input.  For MSFT the pricing service's
`calculate_estimated_pnl` uses the hard-coded cost basis 350.00 instead of the
canonical table value `get_cost_basis "MSFT" = 360.00`, so a SELL of 1 share at
$378.90 yields PnL 28.90 instead of the table-based 18.90; the claimed sign
convention does hold elsewhere, e.g. the spec's Example 1 (BUY 100 AAPL at
175.50, cost basis 165.00 ⇒ −1050.00). -/
theorem msft_cost_basis_divergence :
    calculate_estimated_pnl "MSFT" 1 378.90 .SELL = 28.90
    ∧ get_cost_basis "MSFT" = 360.00
    ∧ roundDec 2 ((378.90 - get_cost_basis "MSFT") * ((1 : ℤ) : ℚ)) = 18.90
    ∧ calculate_estimated_pnl "MSFT" 1 378.90 .SELL
        ≠ roundDec 2 ((378.90 - get_cost_basis "MSFT") * ((1 : ℤ) : ℚ))
    ∧ calculate_estimated_pnl "AAPL" 100 175.50 .BUY = -1050 := by
  have hcb : get_cost_basis "MSFT" = 360.00 := by simp [get_cost_basis]
  have h1 : calculate_estimated_pnl "MSFT" 1 378.90 .SELL = 28.90 := by
    unfold calculate_estimated_pnl
    simp only [get_cost_basis]
    norm_num
    exact roundDec_eq_self 2890 (by norm_num)
  have h2 : roundDec 2 ((378.90 - get_cost_basis "MSFT") * ((1 : ℤ) : ℚ)) = 18.90 := by
    rw [hcb, show (378.90 - 360.00 : ℚ) * ((1 : ℤ) : ℚ) = 18.90 by norm_num]
    exact roundDec_eq_self 1890 (by norm_num)
  have h3 : calculate_estimated_pnl "AAPL" 100 175.50 .BUY = -1050 := by
    unfold calculate_estimated_pnl
    simp only [get_cost_basis]
    simp
    norm_num
    exact roundDec_eq_self (-105000) (by norm_num)
  refine ⟨h1, hcb, h2, ?_, h3⟩
  rw [h1, h2]
  norm_num

lemma assess_status_ne_504 (e : AssessError) : (callErrOfAssess e).status ≠ 504 := by
  cases e <;> simp [callErrOfAssess, AssessError.statusCode]

/-- Any error reply from `/risk/assess` (compliance, consistency or unexpected,
i.e. status 403/422/500, never 504) makes the retail saga fail closed: the
response is FAILED and the execution stage is never invoked. -/
lemma risk_error_blocks_retail (o : OrderReq) (env : RetailEnv)
    (tr : ValidationResult) (vp pr : PricingResult) (err : AssessError)
    (hval : env.validation = .ok tr) (hvalid : tr.valid = true)
    (hvp : env.validationPricing = .ok vp) (hvpne : ¬vp.price = 0)
    (hpr : env.pricing = .ok pr) (hrt : env.riskTransport = none)
    (hassess : assess_risk o.symbol tr.normalized_quantity pr.price pr.estimated_pnl
        o.order_type = .error err) :
    (place_order o env).status = .FAILED
    ∧ (place_order o env).executionInvoked = false := by
  unfold place_order
  rw [hval]
  dsimp only
  rw [hvalid]
  simp only [Bool.true_eq_false, if_false]
  rw [hvp, hpr]
  dsimp only
  rw [if_neg hvpne, hrt]
  dsimp only
  rw [hassess]
  dsimp only
  rw [if_neg (assess_status_ne_504 err)]
  exact ⟨rfl, rfl⟩

/-- When the compliance pre-check passes and the recomputed expected PnL
differs from the supplied PnL by more than the 0.10 tolerance, `assess_risk`
fails with the `pnlMismatch` consistency violation carrying the expected
value, the supplied value and the instrument. -/
lemma assess_risk_pnl_mismatch (symbol : String) (quantity : ℤ) (price pnl : ℚ)
    (ot : OrderType) (hle : (quantity : ℚ) * price ≤ 500000)
    (hdiff : |roundDec 2 (expected_pnl_raw symbol quantity price ot) - pnl| > 0.10) :
    assess_risk symbol quantity price pnl ot
      = .error (.consistency (.pnlMismatch
          (roundDec 2 (expected_pnl_raw symbol quantity price ot)) pnl symbol)) := by
  unfold assess_risk
  rw [validate_compliance_none symbol quantity price ot hle]
  dsimp only
  rw [if_pos hdiff]

/-- C3: given the compliance pre-check passes (notional at most $500,000), the
Consistency Validator recomputes the expected PnL from the risk service's own
cost-basis table with the side-dependent sign formula; whenever the absolute
difference to the supplied PnL exceeds 0.10 the stage fails with the
`pnlMismatch` consistency violation identifying the expected value, the
supplied value and the instrument (the suspected upstream cause is fixed text
of that error), and when the difference is within 0.10 this check never fires;
any such risk-stage error blocks execution: the retail saga ends FAILED and
never invokes the execution stage, so the order cannot reach EXECUTED. -/
theorem consistency_validator_spec :
    (∀ (symbol : String) (quantity : ℤ) (price pnl : ℚ) (ot : OrderType),
      (quantity : ℚ) * price ≤ 500000 →
      ((|roundDec 2 (expected_pnl_raw symbol quantity price ot) - pnl| > 0.10 →
          assess_risk symbol quantity price pnl ot
            = .error (.consistency (.pnlMismatch
                (roundDec 2 (expected_pnl_raw symbol quantity price ot)) pnl symbol)))
        ∧ (|roundDec 2 (expected_pnl_raw symbol quantity price ot) - pnl| ≤ 0.10 →
            ∀ (e a : ℚ) (s : String), assess_risk symbol quantity price pnl ot
              ≠ .error (.consistency (.pnlMismatch e a s)))))
    ∧ (∀ (o : OrderReq) (env : RetailEnv) (tr : ValidationResult)
        (vp pr : PricingResult) (err : AssessError),
        env.validation = .ok tr → tr.valid = true → env.validationPricing = .ok vp →
        ¬vp.price = 0 → env.pricing = .ok pr → env.riskTransport = none →
        assess_risk o.symbol tr.normalized_quantity pr.price pr.estimated_pnl
          o.order_type = .error err →
        (place_order o env).status = .FAILED
        ∧ (place_order o env).executionInvoked = false) := by
  constructor
  · intro symbol quantity price pnl ot hle
    have hc := validate_compliance_none symbol quantity price ot hle
    constructor
    · intro hdiff
      exact assess_risk_pnl_mismatch symbol quantity price pnl ot hle hdiff
    · intro hdiff e a s
      unfold assess_risk
      rw [hc]
      dsimp only
      rw [if_neg (not_lt.mpr hdiff)]
      split
      · split
        · simp
        · split
          · simp
          · split
            · split
              · simp
              · simp
            · rw [if_neg (by norm_num)]
              simp
      · split
        · split
          · simp
          · simp
        · rw [if_neg (by norm_num)]
          simp
  · intro o env tr vp pr err hval hvalid hvp hvpne hpr hrt hassess
    exact risk_error_blocks_retail o env tr vp pr err hval hvalid hvp hvpne hpr hrt hassess

/-- Concrete order used by the C3 witness. -/
def c3Order : OrderReq := { symbol := "AAPL", quantity := 10, order_type := .BUY }

/-- Concrete pricing payload used by the C3 witness (price $175.50, supplied
PnL 0). -/
def c3Pricing : PricingResult :=
  { price := 175.50, estimated_pnl := 0, total_cost := 0, commission := 0,
    fees := 0, base_amount := 0 }

/-- Concrete retail environment used by the C3 witness: every remote call
succeeds, so only the embedded risk service decides the outcome. -/
def c3Env : RetailEnv :=
  { validation := .ok { valid := true, reason := none, normalized_quantity := 10 },
    validationPricing := .ok c3Pricing,
    pricing := .ok c3Pricing,
    riskTransport := none, escalationTransport := none, taxTransport := none,
    execution := .ok { status := "EXECUTED" } }

/-- C3 witness: a BUY of 10 AAPL shares at $175.50 with supplied PnL 0 (the
recomputed expected PnL is −105.00, a mismatch above 0.10) is rejected with the
consistency violation, and it blocks a concrete retail saga run. -/
theorem consistency_validator_witness :
    assess_risk "AAPL" 10 175.50 0 .BUY
      = .error (.consistency (.pnlMismatch (-105) 0 "AAPL"))
    ∧ (place_order c3Order c3Env).status = .FAILED := by
  have hexp : roundDec 2 (expected_pnl_raw "AAPL" 10 175.50 .BUY) = -105 := by
    have h : expected_pnl_raw "AAPL" 10 175.50 .BUY = -105 := by
      unfold expected_pnl_raw
      simp [expected_cost_basis_map]
      norm_num
    rw [h]
    exact roundDec_eq_self (-10500) (by norm_num)
  have ha : assess_risk "AAPL" 10 175.50 0 .BUY
      = .error (.consistency (.pnlMismatch (-105) 0 "AAPL")) := by
    have h := ((consistency_validator_spec.1 "AAPL" 10 175.50 0 .BUY) (by norm_num)).1
    rw [hexp] at h
    exact h (by norm_num)
  refine ⟨ha, ?_⟩
  exact (consistency_validator_spec.2 c3Order c3Env _ c3Pricing c3Pricing _ rfl rfl rfl
    (by norm_num [c3Pricing]) rfl rfl ha).1

/-- C4: for a SELL order with negative supplied PnL that reaches the validator
(positive notional within the compliance cap), a loss exceeding 15% of
notional makes `assess_risk` fail with a ConsistencyViolation-kind (422)
error — before any risk score enters the decision — while a SELL at a loss of
at most 15% of notional is never rejected by this particular check. -/
theorem sell_loss_validator (symbol : String) (quantity : ℤ) (price pnl : ℚ) :
    0 < (quantity : ℚ) * price → (quantity : ℚ) * price ≤ 500000 → pnl < 0 →
    ((|pnl| / ((quantity : ℚ) * price) * 100 > 15 →
        ∃ k, assess_risk symbol quantity price pnl .SELL = .error (.consistency k))
      ∧ (|pnl| / ((quantity : ℚ) * price) * 100 ≤ 15 →
          ∀ l : ℚ, assess_risk symbol quantity price pnl .SELL
            ≠ .error (.consistency (.sellLargeLoss l)))) := by
  intro hpos hle hneg
  have hc := validate_compliance_none symbol quantity price .SELL hle
  have habs : |(quantity : ℚ) * price| = (quantity : ℚ) * price := abs_of_pos hpos
  constructor
  · intro hloss
    by_cases hdiff : |roundDec 2 (expected_pnl_raw symbol quantity price .SELL) - pnl| > 0.10
    · exact ⟨_, assess_risk_pnl_mismatch symbol quantity price pnl .SELL hle hdiff⟩
    · refine ⟨.sellLargeLoss (|pnl| / |(quantity : ℚ) * price| * 100), ?_⟩
      unfold assess_risk
      rw [hc]
      dsimp only
      rw [if_neg hdiff, if_pos ⟨rfl, hneg⟩, if_neg (by rw [habs]; exact ne_of_gt hpos)]
      rw [if_pos (by rw [habs]; exact hloss)]
  · intro hloss l
    by_cases hdiff : |roundDec 2 (expected_pnl_raw symbol quantity price .SELL) - pnl| > 0.10
    · rw [assess_risk_pnl_mismatch symbol quantity price pnl .SELL hle hdiff]
      simp
    · unfold assess_risk
      rw [hc]
      dsimp only
      rw [if_neg hdiff, if_pos ⟨rfl, hneg⟩, if_neg (by rw [habs]; exact ne_of_gt hpos)]
      rw [if_neg (by rw [habs]; exact not_lt.mpr hloss)]
      rw [if_pos (show |(quantity : ℚ) * price| > 0 by rw [habs]; exact hpos)]
      split
      · simp
      · simp

/-- C4 witness: a SELL of 10 TSLA shares at $242.80 with supplied PnL −400
(16.47% of the $2,428 notional, above the 15% bound) fails the validator with a
consistency violation, while a SELL of 10 TSLA shares at $227.00 with supplied
PnL −30 (1.32% of the $2,270 notional, and equal to the recomputed expected
PnL) is not rejected by the SELL-at-loss check. -/
theorem sell_loss_validator_witness :
    (∃ k, assess_risk "TSLA" 10 242.80 (-400) .SELL = .error (.consistency k))
    ∧ (∀ l : ℚ, assess_risk "TSLA" 10 227.00 (-30) .SELL
        ≠ .error (.consistency (.sellLargeLoss l))) := by
  constructor
  · exact ((sell_loss_validator "TSLA" 10 242.80 (-400)) (by norm_num) (by norm_num)
      (by norm_num)).1 (by norm_num)
  · exact ((sell_loss_validator "TSLA" 10 227.00 (-30)) (by norm_num) (by norm_num)
      (by norm_num)).2 (by norm_num)

/-- C10: on the algorithmic path the fast pricing endpoint returns
`estimated_pnl = 0.0` for every order; the lightweight pre-trade check's quick
score is `(quantity / 1000) * 5`, a function of quantity alone, and it passes
iff that score is at most 50; approval is fully characterized by the quantity
bound and the strategy-correlation rule (strategy active and symbol TSLA), so
the supplied price never influences it (and PnL and side are not even part of
the pre-trade payload); and, given validation and both transports succeed, the
algo saga is REJECTED exactly when the pre-trade check disapproves — the
SELL-at-loss and PnL-consistency checks of the standard path cannot fire here. -/
theorem algo_path_spec :
    (∀ (symbol : String) (quantity : ℤ) (ot : OrderType),
      (calculate_algo_pricing symbol quantity ot).estimated_pnl = 0)
    ∧ (∀ req : AlgoRiskRequest,
        (pre_trade_check req).quick_risk_score = (req.quantity : ℚ) / 1000 * 5
        ∧ ((verify_pre_trade_risk req.quantity).2 = true
            ↔ (req.quantity : ℚ) / 1000 * 5 ≤ 50)
        ∧ ((pre_trade_check req).approved = true
            ↔ ((req.quantity : ℚ) / 1000 * 5 ≤ 50
                ∧ ¬(req.strategy_id ∈ active_strategies ∧ req.symbol = "TSLA"))))
    ∧ (∀ (req : AlgoRiskRequest) (p : ℚ),
        pre_trade_check { req with price := p } = pre_trade_check req)
    ∧ (∀ (o : OrderReq) (env : AlgoEnv) (tr : ValidationResult),
        env.validation = .ok tr → tr.valid = true → env.pricingTransport = none →
        env.riskTransport = none →
        ((place_algo_order o env).status = .REJECTED ↔
          (pre_trade_check (algoRiskRequest o
            (calculate_algo_pricing o.symbol o.quantity o.order_type))).approved
              = false)) := by
  refine ⟨?_, ?_, ?_, ?_⟩
  · intro symbol quantity ot
    simp [calculate_algo_pricing]
    norm_num
  · intro req
    refine ⟨rfl, ?_, ?_⟩
    · simp [verify_pre_trade_risk]
    · simp only [pre_trade_check, verify_pre_trade_risk, check_strategy_correlation]
      simp [active_strategies]
      tauto
  · intro req p
    rfl
  · intro o env tr hval hvalid hpt hrt
    unfold place_algo_order
    rw [hval]
    dsimp only
    rw [hvalid]
    simp only [Bool.true_eq_false, if_false]
    rw [hpt]
    dsimp only
    rw [hrt]
    dsimp only
    constructor
    · intro h
      by_contra happ
      rw [if_neg happ] at h
      rcases hexec : env.execution with e | ex <;> rw [hexec] at h <;>
        simp [build_error_response] at h
    · intro h
      rw [if_pos h]

/-- Concrete algo order and environment used by the C10 witness: 20,000 shares
of AAPL, every remote call succeeding. -/
def c10Env : AlgoEnv :=
  { validation := .ok { valid := true, reason := none, normalized_quantity := 20000 },
    pricingTransport := none, riskTransport := none,
    execution := .ok { status := "EXECUTED" } }

/-- C10 witness: the algo pricing PnL is 0 for this concrete order, and with
quantity 20,000 the quick score is 100 > 50, so the pre-trade check disapproves
and the saga run is REJECTED regardless of price, PnL or side. -/
theorem algo_path_spec_witness :
    (calculate_algo_pricing "AAPL" 20000 .BUY).estimated_pnl = 0
    ∧ (place_algo_order { symbol := "AAPL", quantity := 20000, order_type := .BUY }
        c10Env).status = .REJECTED := by
  have happ : (pre_trade_check (algoRiskRequest
      { symbol := "AAPL", quantity := 20000, order_type := .BUY }
      (calculate_algo_pricing "AAPL" 20000 .BUY))).approved = false := by
    simp [pre_trade_check, verify_pre_trade_risk, check_strategy_correlation,
      active_strategies, algoRiskRequest]
    norm_num
  refine ⟨algo_path_spec.1 "AAPL" 20000 .BUY, ?_⟩
  exact (algo_path_spec.2.2.2 { symbol := "AAPL", quantity := 20000, order_type := .BUY }
    c10Env _ rfl rfl rfl rfl).mpr happ

lemma build_error_response_status {ρ : Type} (tr : Option ValidationResult)
    (pr : Option PricingResult) (rr : Option ρ) (e : CallErr) :
    (build_error_response tr pr rr e).status = .FAILED := rfl

lemma build_error_response_invoked {ρ : Type} (tr : Option ValidationResult)
    (pr : Option PricingResult) (rr : Option ρ) (e : CallErr) :
    (build_error_response tr pr rr e).executionInvoked = false := rfl

lemma retail_error_response_status (tr : Option ValidationResult)
    (pr : Option PricingResult) (rr : Option RiskResponse) (e : CallErr) :
    (retail_error_response tr pr rr e).status = .FAILED := rfl

lemma retail_error_response_invoked (tr : Option ValidationResult)
    (pr : Option PricingResult) (rr : Option RiskResponse) (e : CallErr) :
    (retail_error_response tr pr rr e).executionInvoked = false := rfl

/-- A risk response with approved = false that satisfies the standard approval
gate has level HIGH. -/
lemma disapproved_level_high {rr : RiskResponse}
    (hgate : rr.approved = decide (rr.risk_level ≠ .HIGH))
    (happ : rr.approved = false) : rr.risk_level = .HIGH := by
  rw [happ] at hgate
  by_contra hne
  rw [decide_eq_true (show rr.risk_level ≠ .HIGH from hne)] at hgate
  exact Bool.false_ne_true hgate

/-- If `retail_gate_and_execute` produced an EXECUTED response and the risk
response satisfies the standard approval gate, then the order was approved. -/
lemma gate_executed_approved (env : RetailEnv) (tr : ValidationResult)
    (pr : PricingResult) (rr : RiskResponse) (aq : ℤ)
    (hgate : rr.approved = decide (rr.risk_level ≠ .HIGH))
    (h : (retail_gate_and_execute env tr pr rr aq).status = .EXECUTED) :
    rr.approved = true := by
  unfold retail_gate_and_execute at h
  split at h
  · simp at h
  next hcond =>
    cases happ : rr.approved with
    | true => rfl
    | false => exact absurd ⟨disapproved_level_high hgate happ, happ⟩ hcond

/-- If `retail_finish` produced an EXECUTED response and the risk response
satisfies the standard approval gate, then the order was approved. -/
lemma retail_finish_executed_approved (o : OrderReq) (env : RetailEnv)
    (tr : ValidationResult) (pr : PricingResult) (rr : RiskResponse) (aq : ℤ)
    (hgate : rr.approved = decide (rr.risk_level ≠ .HIGH))
    (h : (retail_finish o env tr pr rr aq).status = .EXECUTED) :
    rr.approved = true := by
  unfold retail_finish at h
  split at h
  · rw [retail_error_response_status] at h
    simp at h
  · exact gate_executed_approved env tr pr rr aq hgate h

/-- If the risk stage disapproved (HIGH level, approved = false), then
`retail_finish` either fails (tax-analysis transport error) or rejects, and
never invokes the execution stage. -/
lemma retail_finish_disapproved (o : OrderReq) (env : RetailEnv)
    (tr : ValidationResult) (pr : PricingResult) (rr : RiskResponse) (aq : ℤ)
    (hlvl : rr.risk_level = .HIGH) (happ : rr.approved = false) :
    ((retail_finish o env tr pr rr aq).status = .REJECTED
      ∨ (retail_finish o env tr pr rr aq).status = .FAILED)
    ∧ (retail_finish o env tr pr rr aq).executionInvoked = false := by
  have hgate : (retail_gate_and_execute env tr pr rr aq).status = .REJECTED
      ∧ (retail_gate_and_execute env tr pr rr aq).executionInvoked = false := by
    unfold retail_gate_and_execute
    rw [if_pos ⟨hlvl, happ⟩]
    exact ⟨rfl, rfl⟩
  unfold retail_finish
  split
  · exact ⟨Or.inr (retail_error_response_status _ _ _ _),
      retail_error_response_invoked _ _ _ _⟩
  · exact ⟨Or.inl hgate.1, hgate.2⟩

/-- C1: in each of the three workflows, the saga's final response is EXECUTED
only if the risk-assessment stage returned a result with approved = true; and
whenever the risk stage returns approved = false the saga terminates as
REJECTED, FAILED or PENDING_APPROVAL and the execution stage is never
invoked. -/
theorem executed_requires_risk_approval :
    (∀ (o : OrderReq) (env : RetailEnv),
      ((place_order o env).status = .EXECUTED →
        env.riskTransport = none
        ∧ ∃ (tr : ValidationResult) (pr : PricingResult) (rr : RiskResponse),
            env.validation = .ok tr ∧ env.pricing = .ok pr
            ∧ assess_risk o.symbol tr.normalized_quantity pr.price pr.estimated_pnl
                o.order_type = .ok rr
            ∧ rr.approved = true)
      ∧ (∀ (tr : ValidationResult) (vp pr : PricingResult) (rr : RiskResponse),
          env.validation = .ok tr → tr.valid = true →
          env.validationPricing = .ok vp → ¬vp.price = 0 →
          env.pricing = .ok pr → env.riskTransport = none →
          assess_risk o.symbol tr.normalized_quantity pr.price pr.estimated_pnl
            o.order_type = .ok rr →
          rr.approved = false →
          ((place_order o env).status = .REJECTED
            ∨ (place_order o env).status = .FAILED
            ∨ (place_order o env).status = .PENDING_APPROVAL)
          ∧ (place_order o env).executionInvoked = false))
    ∧ (∀ (o : OrderReq) (env : InstEnv),
      ((place_institutional_order o env).status = .EXECUTED →
        env.riskTransport = none
        ∧ ∃ (tr : ValidationResult) (pr : PricingResult),
            env.validation = .ok tr ∧ env.pricing = .ok pr
            ∧ (assess_institutional_risk o.symbol tr.normalized_quantity pr.price
                pr.estimated_pnl o.order_type).approved = true)
      ∧ (∀ (tr : ValidationResult) (pr : PricingResult),
          env.validation = .ok tr → tr.valid = true → env.pricing = .ok pr →
          env.riskTransport = none →
          (assess_institutional_risk o.symbol tr.normalized_quantity pr.price
              pr.estimated_pnl o.order_type).approved = false →
          (place_institutional_order o env).status = .REJECTED
          ∧ (place_institutional_order o env).executionInvoked = false))
    ∧ (∀ (o : OrderReq) (env : AlgoEnv),
      ((place_algo_order o env).status = .EXECUTED →
        env.riskTransport = none
        ∧ (pre_trade_check (algoRiskRequest o (calculate_algo_pricing o.symbol
            o.quantity o.order_type))).approved = true)
      ∧ (∀ (tr : ValidationResult),
          env.validation = .ok tr → tr.valid = true → env.pricingTransport = none →
          env.riskTransport = none →
          (pre_trade_check (algoRiskRequest o (calculate_algo_pricing o.symbol
            o.quantity o.order_type))).approved = false →
          (place_algo_order o env).status = .REJECTED
          ∧ (place_algo_order o env).executionInvoked = false)) := by
  refine ⟨?_, ?_, ?_⟩
  · intro o env
    constructor
    · intro h
      unfold place_order at h
      rcases hval : env.validation with e | tr <;> rw [hval] at h <;> dsimp only at h
      · rw [retail_error_response_status] at h
        simp at h
      · split at h
        · simp at h
        · rcases hvp : env.validationPricing with e | vp <;> rw [hvp] at h <;>
            dsimp only at h
          · rw [retail_error_response_status] at h
            simp at h
          · rcases hpr : env.pricing with e | pr <;> rw [hpr] at h <;> dsimp only at h
            · rw [retail_error_response_status] at h
              simp at h
            · split at h
              · simp at h
              · rcases hrt : env.riskTransport with _ | e <;> rw [hrt] at h <;>
                  dsimp only at h
                · rcases hass : assess_risk o.symbol tr.normalized_quantity pr.price
                      pr.estimated_pnl o.order_type with ae | rr <;> rw [hass] at h <;>
                    dsimp only at h
                  · split at h
                    · simp at h
                    · rw [retail_error_response_status] at h
                      simp at h
                  · have hgate := (assess_risk_ok_spec hass).2.2
                    split at h
                    · rcases het : env.escalationTransport with _ | e <;>
                        rw [het] at h <;> dsimp only at h
                      · split at h
                        · simp at h
                        · exact ⟨rfl, tr, pr, rr, rfl, rfl, hass,
                            retail_finish_executed_approved o env tr pr rr
                              tr.normalized_quantity hgate h⟩
                      · rw [retail_error_response_status] at h
                        simp at h
                    · exact ⟨rfl, tr, pr, rr, rfl, rfl, hass,
                        retail_finish_executed_approved o env tr pr rr
                          tr.normalized_quantity hgate h⟩
                · split at h
                  · simp at h
                  · rw [retail_error_response_status] at h
                    simp at h
    · intro tr vp pr rr hvalE hvalid hvpE hvpne hprE hrtE hass happ
      have hgate := (assess_risk_ok_spec hass).2.2
      have hlvl : rr.risk_level = .HIGH := by
        rw [happ] at hgate
        by_contra hne
        rw [decide_eq_true (show rr.risk_level ≠ .HIGH from hne)] at hgate
        exact Bool.false_ne_true hgate
      unfold place_order
      rw [hvalE]
      dsimp only
      rw [hvalid]
      simp only [Bool.true_eq_false, if_false]
      rw [hvpE, hprE]
      dsimp only
      rw [if_neg hvpne, hrtE]
      dsimp only
      rw [hass]
      dsimp only
      split
      · rcases het : env.escalationTransport with _ | e <;> dsimp only
        · split
          · exact ⟨Or.inr (Or.inr rfl), rfl⟩
          · rcases retail_finish_disapproved o env tr pr rr tr.normalized_quantity
              hlvl happ with ⟨hst, hinv⟩
            refine ⟨?_, hinv⟩
            rcases hst with hx | hx
            · exact Or.inl hx
            · exact Or.inr (Or.inl hx)
        · exact ⟨Or.inr (Or.inl (retail_error_response_status _ _ _ _)),
            retail_error_response_invoked _ _ _ _⟩
      · rcases retail_finish_disapproved o env tr pr rr tr.normalized_quantity
          hlvl happ with ⟨hst, hinv⟩
        refine ⟨?_, hinv⟩
        rcases hst with hx | hx
        · exact Or.inl hx
        · exact Or.inr (Or.inl hx)
  · intro o env
    constructor
    · intro h
      unfold place_institutional_order at h
      rcases hval : env.validation with e | tr <;> rw [hval] at h
      · rw [build_error_response_status] at h
        simp at h
      · dsimp only at h
        split at h
        · simp at h
        · rcases hpr : env.pricing with e | pr <;> rw [hpr] at h
          · rw [build_error_response_status] at h
            simp at h
          · rcases hrt : env.riskTransport with _ | e <;> rw [hrt] at h
            · dsimp only at h
              split at h
              · simp at h
              next happ =>
                refine ⟨rfl, tr, pr, rfl, rfl, ?_⟩
                cases hb : (assess_institutional_risk o.symbol tr.normalized_quantity
                    pr.price pr.estimated_pnl o.order_type).approved with
                | true => rfl
                | false => exact absurd hb happ
            · rw [build_error_response_status] at h
              simp at h
    · intro tr pr hvalE hvalid hprE hrtE happ
      unfold place_institutional_order
      rw [hvalE]
      dsimp only
      rw [hvalid]
      simp only [Bool.true_eq_false, if_false]
      rw [hprE]
      dsimp only
      rw [hrtE]
      dsimp only
      rw [if_pos happ]
      exact ⟨rfl, rfl⟩
  · intro o env
    constructor
    · intro h
      unfold place_algo_order at h
      rcases hval : env.validation with e | tr <;> rw [hval] at h
      · rw [build_error_response_status] at h
        simp at h
      · dsimp only at h
        split at h
        · simp at h
        · rcases hpt : env.pricingTransport with _ | e <;> rw [hpt] at h
          · rcases hrt : env.riskTransport with _ | e <;> rw [hrt] at h
            · dsimp only at h
              split at h
              · simp at h
              next happ =>
                refine ⟨rfl, ?_⟩
                cases hb : (pre_trade_check (algoRiskRequest o (calculate_algo_pricing
                    o.symbol o.quantity o.order_type))).approved with
                | true => rfl
                | false => exact absurd hb happ
            · rw [build_error_response_status] at h
              simp at h
          · rw [build_error_response_status] at h
            simp at h
    · intro tr hvalE hvalid hptE hrtE happ
      unfold place_algo_order
      rw [hvalE]
      dsimp only
      rw [hvalid]
      simp only [Bool.true_eq_false, if_false]
      rw [hptE]
      dsimp only
      rw [hrtE]
      dsimp only
      rw [if_pos happ]
      exact ⟨rfl, rfl⟩

/-- Concrete retail order used by the C1 witness. -/
def c1Order : OrderReq := { symbol := "AAPL", quantity := 50, order_type := .BUY }

/-- Concrete pricing payload used by the C1 witness: price $175.50, supplied
PnL −525 (matching the expected PnL exactly). -/
def c1Pricing : PricingResult :=
  { price := 175.50, estimated_pnl := -525, total_cost := 8867.75,
    commission := 43.875, fees := 0.50, base_amount := 8775 }

/-- Concrete retail environment used by the C1 witness: every remote call
succeeds. -/
def c1Env : RetailEnv :=
  { validation := .ok { valid := true, reason := none, normalized_quantity := 50 },
    validationPricing := .ok c1Pricing,
    pricing := .ok c1Pricing,
    riskTransport := none, escalationTransport := none, taxTransport := none,
    execution := .ok { status := "EXECUTED" } }

/-- Concrete institutional order and environment used by the C1 witness: a
60,000-share TSLA order whose regulatory check disapproves. -/
def c1InstTr : ValidationResult :=
  { valid := true, reason := none, normalized_quantity := 60000 }

/-- Institutional pricing payload for the C1 witness. -/
def c1InstPricing : PricingResult :=
  { price := 242.80, estimated_pnl := 0, total_cost := 0, commission := 0,
    fees := 0, base_amount := 0 }

/-- Institutional order for the C1 witness. -/
def c1InstOrder : OrderReq :=
  { symbol := "TSLA", quantity := 60000, order_type := .BUY }

/-- Institutional environment for the C1 witness. -/
def c1InstEnv : InstEnv :=
  { validation := .ok c1InstTr, pricing := .ok c1InstPricing,
    riskTransport := none, execution := .ok { status := "EXECUTED" } }

/-- C1 witness: the all-successful retail run executes, and by the claim
theorem its risk stage returned approved = true; the disapproved institutional
run is REJECTED without invoking execution. -/
theorem executed_requires_risk_approval_witness :
    ((place_order c1Order c1Env).status = .EXECUTED
      ∧ ∃ (tr : ValidationResult) (pr : PricingResult) (rr : RiskResponse),
          c1Env.validation = .ok tr ∧ c1Env.pricing = .ok pr
          ∧ assess_risk c1Order.symbol tr.normalized_quantity pr.price
              pr.estimated_pnl c1Order.order_type = .ok rr
          ∧ rr.approved = true)
    ∧ ((place_institutional_order c1InstOrder c1InstEnv).status = .REJECTED
        ∧ (place_institutional_order c1InstOrder c1InstEnv).executionInvoked
            = false) := by
  have hexp : roundDec 2 (expected_pnl_raw "AAPL" 50 175.50 .BUY) = -525 := by
    have h : expected_pnl_raw "AAPL" 50 175.50 .BUY = -525 := by
      unfold expected_pnl_raw
      simp [expected_cost_basis_map]
      norm_num
    rw [h]
    exact roundDec_eq_self (-52500) (by norm_num)
  have hscore : calculate_risk_score "AAPL" 50 175.50 (-525) .BUY = 26.4 := by
    have hras : risk_after_sector "AAPL" 50 175.50 (-525) = 26.4 := by
      simp [risk_after_sector, base_risk_score, calculate_position_size_impact,
        calculate_pnl_risk_factor, assess_quantity_risk, calculate_volatility_multiplier,
        sector_multiplier]
      norm_num
    unfold calculate_risk_score normalize_risk_score
    rw [hras]
    rw [show max (min (26.4 : ℚ) 100) 0 = 26.4 by norm_num]
    exact roundDec_eq_self 26400 (by norm_num)
  have hass : assess_risk "AAPL" 50 175.50 (-525) .BUY
      = .ok { risk_score := 26.4, risk_level := .LOW, approved := true } := by
    unfold assess_risk
    rw [validate_compliance_none "AAPL" 50 175.50 .BUY (by norm_num)]
    dsimp only
    rw [hexp]
    rw [if_neg (by norm_num)]
    rw [if_neg (by simp)]
    rw [if_neg (show ¬(if |((50 : ℤ) : ℚ) * 175.50| > 0
        then |(-525 : ℚ)| / |((50 : ℤ) : ℚ) * 175.50| else 0) > 0.15 by
      rw [if_pos (by norm_num)]
      norm_num)]
    rw [hscore]
    rw [show determine_risk_level 26.4 = .LOW by
      unfold determine_risk_level
      rw [if_neg (by norm_num), if_neg (by norm_num)]]
    rfl
  have hex : (place_order c1Order c1Env).status = .EXECUTED := by
    unfold place_order c1Order c1Env
    dsimp only
    rw [if_neg (show ¬c1Pricing.price = 0 by unfold c1Pricing; norm_num)]
    rw [show c1Pricing.price = 175.50 from rfl, show c1Pricing.estimated_pnl = -525 from rfl]
    rw [hass]
    dsimp only
    rw [if_neg (show ¬(true = false) by simp)]
    rw [if_neg (show ¬((26.4 : ℚ) > 75) by norm_num)]
    unfold retail_finish
    rw [if_neg (by simp)]
    dsimp only
    unfold retail_gate_and_execute
    rw [if_neg (by simp)]
  refine ⟨⟨hex, ((executed_requires_risk_approval.1 c1Order c1Env).1 hex).2⟩, ?_⟩
  have happ : (assess_institutional_risk "TSLA" c1InstTr.normalized_quantity
      c1InstPricing.price c1InstPricing.estimated_pnl .BUY).approved = false := by
    unfold assess_institutional_risk c1InstTr c1InstPricing
    dsimp only
    rw [decide_eq_true (show ((60000 : ℤ) : ℚ) * 242.80 > 500000 by norm_num)]
    simp
  exact (executed_requires_risk_approval.2.1 c1InstOrder c1InstEnv).2
    c1InstTr c1InstPricing rfl rfl rfl rfl happ

/-- Retail environment whose risk call times out (HTTP 504), used by the C9
counterexample: it hits the dedicated timeout path of `place_order`. -/
def c9TimeoutEnv : RetailEnv :=
  { validation := .ok { valid := true, reason := none, normalized_quantity := 50 },
    validationPricing := .ok c1Pricing,
    pricing := .ok c1Pricing,
    riskTransport := some { status := 504, detail := "Service timeout" },
    escalationTransport := none, taxTransport := none,
    execution := .ok { status := "EXECUTED" } }

/-- C9 counterexample: a retail saga whose risk stage times out returns a
FAILED response with NO failure section at all (the dedicated 504 path writes a
`risk_assessment` timeout marker instead), so this failure reports no
failure_stage, contradicting the claim that every exception/timeout failure
reports the first uncaptured stage. -/
theorem failure_attribution_counterexample :
    (place_order c1Order c9TimeoutEnv).status = .FAILED
    ∧ (place_order c1Order c9TimeoutEnv).flow.failure = none
    ∧ (place_order c1Order c9TimeoutEnv).flow.risk_assessment = some .timedOut := by
  unfold place_order c1Order c9TimeoutEnv
  dsimp only
  rw [if_neg (show ¬(true = false) by simp)]
  rw [if_neg (show ¬c1Pricing.price = 0 by unfold c1Pricing; norm_num)]
  rw [if_pos (show (504 : ℕ) = 504 from rfl)]
  exact ⟨rfl, rfl, rfl⟩

/-- Failure attribution for the tail of the retail saga: any failure section
written by `retail_finish` names the first uncaptured stage and the flow has no
execution section. -/
lemma retail_finish_failure_attribution (o : OrderReq) (env : RetailEnv)
    (tr : ValidationResult) (pr : PricingResult) (rr : RiskResponse) (aq : ℤ)
    (f : FailureInfo)
    (h : (retail_finish o env tr pr rr aq).flow.failure = some f) :
    f.stage = determine_failure_stage (retail_finish o env tr pr rr aq).flow.validation
      (retail_finish o env tr pr rr aq).flow.pricing_calculation
      (retail_finish o env tr pr rr aq).flow.risk_assessment
    ∧ (retail_finish o env tr pr rr aq).flow.execution = none := by
  unfold retail_finish at h ⊢
  rcases htax : (if o.order_type = .SELL ∧ pr.estimated_pnl < 0
      then env.taxTransport else none) with _ | e
  all_goals rw [htax] at h
  all_goals dsimp only at h ⊢
  · unfold retail_gate_and_execute at h ⊢
    by_cases hc : rr.risk_level = .HIGH ∧ rr.approved = false
    · rw [if_pos hc] at h
      simp at h
    · rw [if_neg hc] at h ⊢
      rcases hex : env.execution with e | ex <;> rw [hex] at h <;> dsimp only at h ⊢
      · simp only [retail_error_response, build_error_response, Option.some.injEq] at h
        subst h
        exact ⟨rfl, rfl⟩
      · simp at h
  · simp only [retail_error_response, build_error_response, Option.some.injEq] at h
    subst h
    exact ⟨rfl, rfl⟩

/-- C9 (amended): every failure response built by `build_error_response` (the
shared handler of the institutional and algo workflows) and every failure
section written by the retail handler attributes the failure to the first
stage, in the order validation < pricing_calculation < risk_assessment <
execution, whose output was not captured; the flow echoes exactly the captured
stage outputs, contains no sections for stages not reached and never an
execution section; in particular a saga failing during pricing reports
failure_stage = "pricing_calculation" with the validation output included and
risk/execution omitted.  Exception (forced by the counterexample): the retail
risk-stage 504 timeout path returns FAILED with a risk_assessment timeout
marker and no failure section. -/
theorem failure_attribution_spec :
    (∀ (ρ : Type) (tr : Option ValidationResult) (pr : Option PricingResult)
        (rr : Option ρ) (e : CallErr),
      (build_error_response tr pr rr e).status = .FAILED
      ∧ (build_error_response tr pr rr e).flow.validation
          = tr.map (fun t => passedValidation t.normalized_quantity)
      ∧ (build_error_response tr pr rr e).flow.pricing_calculation = pr
      ∧ (build_error_response tr pr rr e).flow.risk_assessment = rr
      ∧ (build_error_response tr pr rr e).flow.execution = none
      ∧ (build_error_response tr pr rr e).flow.failure
          = some { stage := determine_failure_stage tr pr rr,
                   message := e.detail, statusCode := e.status })
    ∧ (∀ (α β γ : Type) (tr : Option α) (pr : Option β) (rr : Option γ),
        (determine_failure_stage tr pr rr = "validation" ↔ tr = none)
        ∧ (determine_failure_stage tr pr rr = "pricing_calculation"
            ↔ tr ≠ none ∧ pr = none)
        ∧ (determine_failure_stage tr pr rr = "risk_assessment"
            ↔ tr ≠ none ∧ pr ≠ none ∧ rr = none)
        ∧ (determine_failure_stage tr pr rr = "execution"
            ↔ tr ≠ none ∧ pr ≠ none ∧ rr ≠ none))
    ∧ (∀ (o : OrderReq) (env : RetailEnv) (f : FailureInfo),
        (place_order o env).flow.failure = some f →
        f.stage = determine_failure_stage (place_order o env).flow.validation
          (place_order o env).flow.pricing_calculation
          (place_order o env).flow.risk_assessment
        ∧ (place_order o env).flow.execution = none)
    ∧ (∀ (o : OrderReq) (env : RetailEnv) (tr : ValidationResult)
        (vp : PricingResult) (e : CallErr),
        env.validation = .ok tr → tr.valid = true →
        env.validationPricing = .ok vp → env.pricing = .error e →
        (place_order o env).status = .FAILED
        ∧ (place_order o env).flow.failure
            = some { stage := "pricing_calculation", message := e.detail,
                     statusCode := e.status }
        ∧ (place_order o env).flow.validation
            = some (passedValidation tr.normalized_quantity)
        ∧ (place_order o env).flow.risk_assessment = none
        ∧ (place_order o env).flow.execution = none) := by
  refine ⟨?_, ?_, ?_, ?_⟩
  · intro ρ tr pr rr e
    exact ⟨rfl, rfl, rfl, rfl, rfl, rfl⟩
  · intro α β γ tr pr rr
    rcases tr with _ | t <;> rcases pr with _ | p <;> rcases rr with _ | r <;>
      simp [determine_failure_stage]
  · intro o env f h
    unfold place_order at h ⊢
    rcases hval : env.validation with e | tr <;> rw [hval] at h <;> dsimp only at h ⊢
    · simp only [retail_error_response, build_error_response, Option.some.injEq] at h
      subst h
      exact ⟨rfl, rfl⟩
    · by_cases hv : tr.valid = false
      · rw [if_pos hv] at h
        simp at h
      · rw [if_neg hv] at h ⊢
        rcases hvp : env.validationPricing with e | vp <;> rw [hvp] at h <;>
          dsimp only at h ⊢
        · simp only [retail_error_response, build_error_response, Option.some.injEq] at h
          subst h
          exact ⟨rfl, rfl⟩
        · rcases hpr : env.pricing with e | pr <;> rw [hpr] at h <;> dsimp only at h ⊢
          · simp only [retail_error_response, build_error_response, Option.some.injEq] at h
            subst h
            exact ⟨rfl, rfl⟩
          · by_cases hz : vp.price = 0
            · rw [if_pos hz] at h
              simp [Flow.empty] at h
            · rw [if_neg hz] at h ⊢
              rcases hrt : env.riskTransport with _ | e <;> rw [hrt] at h <;>
                dsimp only at h ⊢
              · rcases hass : assess_risk o.symbol tr.normalized_quantity pr.price
                    pr.estimated_pnl o.order_type with ae | rr <;> rw [hass] at h <;>
                  dsimp only at h ⊢
                · by_cases h504 : (callErrOfAssess ae).status = 504
                  · rw [if_pos h504] at h
                    simp at h
                  · rw [if_neg h504] at h ⊢
                    simp only [retail_error_response, build_error_response,
                      Option.some.injEq] at h
                    subst h
                    exact ⟨rfl, rfl⟩
                · by_cases h75 : rr.risk_score > 75
                  · rw [if_pos h75] at h ⊢
                    rcases het : env.escalationTransport with _ | e <;> rw [het] at h <;>
                      dsimp only at h ⊢
                    · by_cases hesc : escalate_to_risk_manager rr.risk_score = false
                      · rw [if_pos hesc] at h
                        simp [Flow.empty] at h
                      · rw [if_neg hesc] at h ⊢
                        exact retail_finish_failure_attribution o env tr pr rr
                          tr.normalized_quantity f h
                    · simp only [retail_error_response, build_error_response,
                        Option.some.injEq] at h
                      subst h
                      exact ⟨rfl, rfl⟩
                  · rw [if_neg h75] at h ⊢
                    exact retail_finish_failure_attribution o env tr pr rr
                      tr.normalized_quantity f h
              · by_cases h504 : e.status = 504
                · rw [if_pos h504] at h
                  simp at h
                · rw [if_neg h504] at h ⊢
                  simp only [retail_error_response, build_error_response,
                    Option.some.injEq] at h
                  subst h
                  exact ⟨rfl, rfl⟩
  · intro o env tr vp e hval hvalid hvp hpr
    unfold place_order
    rw [hval]
    dsimp only
    rw [hvalid]
    simp only [Bool.true_eq_false, if_false]
    rw [hvp, hpr]
    dsimp only
    exact ⟨rfl, rfl, rfl, rfl, rfl⟩

/-- Retail environment whose execution-pricing call fails with HTTP 500, used
by the C9 witness. -/
def c9PricingFailEnv : RetailEnv :=
  { validation := .ok { valid := true, reason := none, normalized_quantity := 50 },
    validationPricing := .ok c1Pricing,
    pricing := .error { status := 500, detail := "Service error" },
    riskTransport := none, escalationTransport := none, taxTransport := none,
    execution := .ok { status := "EXECUTED" } }

/-- C9 witness: a concrete retail saga failing during the pricing stage reports
failure_stage "pricing_calculation", includes the validation output, and omits
the risk and execution sections. -/
theorem failure_attribution_spec_witness :
    (place_order c1Order c9PricingFailEnv).status = .FAILED
    ∧ (place_order c1Order c9PricingFailEnv).flow.failure
        = some { stage := "pricing_calculation", message := "Service error",
                 statusCode := 500 }
    ∧ (place_order c1Order c9PricingFailEnv).flow.validation
        = some (passedValidation 50)
    ∧ (place_order c1Order c9PricingFailEnv).flow.risk_assessment = none
    ∧ (place_order c1Order c9PricingFailEnv).flow.execution = none := by
  have h := failure_attribution_spec.2.2.2 c1Order c9PricingFailEnv
    { valid := true, reason := none, normalized_quantity := 50 } c1Pricing
    { status := 500, detail := "Service error" } rfl rfl rfl rfl
  exact ⟨h.1, h.2.1, h.2.2.1, h.2.2.2.1, h.2.2.2.2⟩

/-- C7 witness: at price $10 (unclamped region) the one-share difference at the
100 boundary strictly increases the final AAPL risk score, and the quantity
factors are 5 and 10 respectively. -/
theorem quantity_factor_boundary_witness :
    assess_quantity_risk 100 = 5 ∧ assess_quantity_risk 101 = 10
    ∧ calculate_risk_score "AAPL" 100 10 0 .BUY
        < calculate_risk_score "AAPL" 101 10 0 .BUY := by
  have hraw : risk_after_sector "AAPL" 101 10 0 = 26.4 := by
    simp [risk_after_sector, base_risk_score, calculate_position_size_impact,
      calculate_pnl_risk_factor, assess_quantity_risk, calculate_volatility_multiplier,
      sector_multiplier]
    norm_num
  refine ⟨(quantity_factor_boundary 100).2.2.2.1.mpr (by norm_num),
    ((quantity_factor_boundary 101).2.2.1).mpr (by norm_num), ?_⟩
  exact (quantity_factor_boundary 100).2.2.2.2.2.2 "AAPL" 10 0 .BUY (by norm_num)
    (by rw [hraw]; norm_num)

/-- C8 witness: score 85 maps to HIGH, the mapping is monotone from score 30 to
score 85, and a concrete successful assessment (unknown symbol, 10 shares at
$50, PnL 0 ⇒ score 15, LOW) satisfies level = mapping of score and
approved ↔ level ≠ HIGH. -/
theorem level_mapping_spec_witness :
    determine_risk_level 85 = .HIGH
    ∧ (determine_risk_level 30).rank ≤ (determine_risk_level 85).rank
    ∧ ∃ rr : RiskResponse, assess_risk "ZZZ" 10 50 0 .BUY = .ok rr
        ∧ rr.risk_level = determine_risk_level rr.risk_score
        ∧ (rr.approved = true ↔ rr.risk_level ≠ .HIGH) := by
  have hexp : roundDec 2 (expected_pnl_raw "ZZZ" 10 50 .BUY) = 0 := by
    have h : expected_pnl_raw "ZZZ" 10 50 .BUY = 0 := by
      unfold expected_pnl_raw
      simp [expected_cost_basis_map]
      norm_num
    rw [h]
    exact roundDec_eq_self 0 (by norm_num)
  have hscore : calculate_risk_score "ZZZ" 10 50 0 .BUY = 15 := by
    have hras : risk_after_sector "ZZZ" 10 50 0 = 15 := by
      simp [risk_after_sector, base_risk_score, calculate_position_size_impact,
        calculate_pnl_risk_factor, assess_quantity_risk, calculate_volatility_multiplier,
        sector_multiplier]
      norm_num
    unfold calculate_risk_score normalize_risk_score
    rw [hras]
    rw [show max (min (15 : ℚ) 100) 0 = 15 by norm_num]
    exact roundDec_eq_self 15000 (by norm_num)
  have hass : assess_risk "ZZZ" 10 50 0 .BUY
      = .ok { risk_score := 15, risk_level := .LOW, approved := true } := by
    unfold assess_risk
    rw [validate_compliance_none "ZZZ" 10 50 .BUY (by norm_num)]
    dsimp only
    rw [hexp]
    rw [if_neg (by norm_num)]
    rw [if_neg (by simp)]
    rw [if_neg (show ¬(if |((10 : ℤ) : ℚ) * 50| > 0
        then |(0 : ℚ)| / |((10 : ℤ) : ℚ) * 50| else 0) > 0.15 by
      rw [if_pos (by norm_num)]
      norm_num)]
    rw [hscore]
    rw [show determine_risk_level 15 = .LOW by
      unfold determine_risk_level
      rw [if_neg (by norm_num), if_neg (by norm_num)]]
    rfl
  refine ⟨((level_mapping_spec 85).1).mpr (by norm_num),
    (level_mapping_spec 30).2.2.2.1 85 (by norm_num),
    { risk_score := 15, risk_level := .LOW, approved := true }, hass, ?_⟩
  exact (level_mapping_spec 0).2.2.2.2 "ZZZ" 10 50 0 .BUY _ hass

end TradePlatform
